import Mathlib

set_option maxHeartbeats 800000

namespace VantigeSDK

/-!
Shallow embedding of the Vantige TypeScript SDK (`@vantige-ai/typescript-sdk`).

JavaScript strings are modelled as `List Char` where theorems quantify over
their contents, and as Lean `String` for constant message text.  JavaScript
truthiness is modelled explicitly wherever the source branches on it
(`x || y`, `if (x)`), since `0`, `""`, `false`, `null` and `undefined` are
all falsy there.
-/

/-- A JavaScript value that is not an array: the shapes the SDK's error
paths can receive as a single structured detail payload.  Plain objects are
opaque to the SDK and are distinguished only by an identifier. -/
inductive JsAtom where
  | null
  | undefined
  | bool (b : Bool)
  | num (n : Int)
  | str (s : List Char)
  | obj (id : Nat)
deriving DecidableEq

/-- A JavaScript value as passed for the `details` argument of
`createVantigeError`: either a non-array value or an array of them (the SDK
never nests arrays inside `details`). -/
inductive JsValue where
  | atom (a : JsAtom)
  | arr (l : List JsAtom)
deriving DecidableEq

/-- JavaScript truthiness of a non-array value. -/
def JsAtom.truthy : JsAtom → Bool
  | .null => false
  | .undefined => false
  | .bool b => b
  | .num n => n != 0
  | .str s => s != []
  | .obj _ => true

/-- JavaScript truthiness; arrays are always truthy. -/
def JsValue.truthy : JsValue → Bool
  | .atom a => a.truthy
  | .arr _ => true

/-- JS `a || b` where `a` is an optional string and `b` a string: an absent
or empty `a` falls through to `b`. -/
def jsOrStr (a : Option String) (b : String) : String :=
  match a with
  | some s => if s = "" then b else s
  | none => b

/-- JS `a || b` where both operands are optional strings. -/
def jsOrStrOpt (a b : Option String) : Option String :=
  match a with
  | some s => if s = "" then b else some s
  | none => b

/-- JS `a || b` where both operands are optional values. -/
def jsOrValOpt (a b : Option JsValue) : Option JsValue :=
  match a with
  | some v => if v.truthy then some v else b
  | none => b

/-- JS `a || b` where `a` is an optional number (a `0` falls through). -/
def jsOrNat (a : Option Nat) (b : Nat) : Nat :=
  match a with
  | some n => if n = 0 then b else n
  | none => b

/-- The `VantigeErrorCode` enum from `src/types/errors.ts`. -/
inductive VantigeErrorCode where
  | INVALID_API_KEY
  | EXPIRED_API_KEY
  | INSUFFICIENT_PERMISSIONS
  | RATE_LIMIT_EXCEEDED
  | KNOWLEDGE_BASE_NOT_FOUND
  | KNOWLEDGE_BASE_ACCESS_DENIED
  | KNOWLEDGE_BASE_CREATION_FAILED
  | KNOWLEDGE_BASE_IMPORT_FAILED
  | INVALID_QUERY
  | QUERY_TOO_LONG
  | NO_RESULTS_FOUND
  | QUERY_TIMEOUT
  | DOCUMENT_NOT_FOUND
  | DOCUMENT_UPLOAD_FAILED
  | UNSUPPORTED_FILE_TYPE
  | FILE_TOO_LARGE
  | DOCUMENT_PROCESSING_FAILED
  | CHAT_SESSION_NOT_FOUND
  | CHAT_SESSION_EXPIRED
  | INVALID_CHAT_MESSAGE
  | NETWORK_ERROR
  | REQUEST_TIMEOUT
  | SERVICE_UNAVAILABLE
  | VALIDATION_ERROR
  | MISSING_REQUIRED_FIELD
  | INVALID_FIELD_VALUE
  | INTERNAL_SERVER_ERROR
  | SERVICE_TEMPORARILY_UNAVAILABLE
  | SDK_INITIALIZATION_ERROR
  | UNSUPPORTED_OPERATION
  | CONFIGURATION_ERROR
deriving DecidableEq

/-- The `ErrorMessages` table from `src/types/errors.ts`: the canonical
default message for each error code. -/
def ErrorMessages : VantigeErrorCode → String
  | .INVALID_API_KEY => "The provided API key is invalid or malformed"
  | .EXPIRED_API_KEY => "The API key has expired"
  | .INSUFFICIENT_PERMISSIONS => "Insufficient permissions. This API key may not have the required scope for this operation"
  | .RATE_LIMIT_EXCEEDED => "Rate limit exceeded. Please try again later"
  | .KNOWLEDGE_BASE_NOT_FOUND => "Knowledge base not found"
  | .KNOWLEDGE_BASE_ACCESS_DENIED => "Access denied to knowledge base"
  | .KNOWLEDGE_BASE_CREATION_FAILED => "Failed to create knowledge base"
  | .KNOWLEDGE_BASE_IMPORT_FAILED => "Failed to import data into knowledge base"
  | .INVALID_QUERY => "The query is invalid or malformed"
  | .QUERY_TOO_LONG => "Query exceeds maximum length limit"
  | .NO_RESULTS_FOUND => "No results found for the query"
  | .QUERY_TIMEOUT => "Query timed out"
  | .DOCUMENT_NOT_FOUND => "Document not found"
  | .DOCUMENT_UPLOAD_FAILED => "Document upload failed"
  | .UNSUPPORTED_FILE_TYPE => "Unsupported file type"
  | .FILE_TOO_LARGE => "File size exceeds maximum limit"
  | .DOCUMENT_PROCESSING_FAILED => "Document processing failed"
  | .CHAT_SESSION_NOT_FOUND => "Chat session not found"
  | .CHAT_SESSION_EXPIRED => "Chat session has expired"
  | .INVALID_CHAT_MESSAGE => "Invalid chat message format"
  | .NETWORK_ERROR => "Network error occurred"
  | .REQUEST_TIMEOUT => "Request timed out"
  | .SERVICE_UNAVAILABLE => "Service is currently unavailable"
  | .VALIDATION_ERROR => "Validation error"
  | .MISSING_REQUIRED_FIELD => "Missing required field"
  | .INVALID_FIELD_VALUE => "Invalid field value"
  | .INTERNAL_SERVER_ERROR => "Internal server error"
  | .SERVICE_TEMPORARILY_UNAVAILABLE => "Service temporarily unavailable"
  | .SDK_INITIALIZATION_ERROR => "SDK initialization error"
  | .UNSUPPORTED_OPERATION => "Unsupported operation"
  | .CONFIGURATION_ERROR => "Configuration error"

/-- The `VantigeSDKError` class from `src/types/errors.ts`.  The `name`
field is the constant `"VantigeSDKError"`; the `timestamp` (wall clock) and
`stack` (V8 runtime) fields are environment-supplied and are left out of
the pure model. -/
structure VantigeSDKError where
  message : String
  code : VantigeErrorCode
  statusCode : Nat
  details : List JsAtom
  requestId : Option String
deriving DecidableEq

/-- The `details` normalization in `createVantigeError`:
`Array.isArray(details) ? details : details ? [details] : []`. -/
def normalizeDetails : Option JsValue → List JsAtom
  | none => []
  | some (.arr l) => l
  | some (.atom a) => if a.truthy then [a] else []

/-- The `createVantigeError` factory from `src/types/errors.ts`. -/
def createVantigeError (code : VantigeErrorCode) (message : Option String)
    (statusCode : Option Nat) (details : Option JsValue)
    (requestId : Option String) : VantigeSDKError :=
  { message := jsOrStr message (ErrorMessages code)
    code := code
    statusCode := jsOrNat statusCode 500
    details := normalizeDetails details
    requestId := requestId }

/-- The plain record produced by `VantigeSDKError.toJSON` (minus the
environment-supplied `timestamp` and `stack` fields). -/
structure ErrorJSON where
  name : String
  message : String
  code : VantigeErrorCode
  statusCode : Nat
  details : List JsAtom
  requestId : Option String
deriving DecidableEq

/-- The `toJSON` serialization method of `VantigeSDKError`. -/
def VantigeSDKError.toJSON (e : VantigeSDKError) : ErrorJSON :=
  { name := "VantigeSDKError"
    message := e.message
    code := e.code
    statusCode := e.statusCode
    details := e.details
    requestId := e.requestId }

/-- The parts of an axios HTTP response body that `handleError` inspects:
`data?.error?.message`, `data?.message`, `data?.error?.details`,
`data?.details` and `data?.meta?.requestId`. -/
structure ResponseData where
  errorMessage : Option String
  topMessage : Option String
  errorDetails : Option JsValue
  topDetails : Option JsValue
  metaRequestId : Option String
deriving DecidableEq

/-- A raw failure reaching `handleError` in `src/client/http-client.ts`:
an already-classified `VantigeSDKError`, an axios error without a response
(carrying the axios `code` such as `"ECONNABORTED"`), an axios error with
an HTTP response, or any other thrown value. -/
inductive RawError where
  | vantige (e : VantigeSDKError)
  | axiosNoResponse (code : Option String) (message : String)
  | axiosWithResponse (status : Nat) (data : ResponseData)
      (headerRequestId : Option String) (message : String)
  | other (message : Option String)
deriving DecidableEq

/-- The `switch (status)` table inside `handleError` mapping HTTP status
codes to error codes (cases in source order; `default` is
`NETWORK_ERROR`). -/
def statusToErrorCode (status : Nat) : VantigeErrorCode :=
  if status = 401 then .INVALID_API_KEY
  else if status = 403 then .INSUFFICIENT_PERMISSIONS
  else if status = 404 then .KNOWLEDGE_BASE_NOT_FOUND
  else if status = 429 then .RATE_LIMIT_EXCEEDED
  else if status = 422 then .VALIDATION_ERROR
  else if status = 500 then .INTERNAL_SERVER_ERROR
  else if status = 503 then .SERVICE_UNAVAILABLE
  else .NETWORK_ERROR

/-- The `handleError` method of `VantigeHttpClient`
(`src/client/http-client.ts`). -/
def handleError : RawError → VantigeSDKError
  | .vantige e => e
  | .axiosNoResponse code _message =>
      if code = some "ECONNABORTED" then
        createVantigeError .REQUEST_TIMEOUT (some "Request timed out") none none none
      else
        createVantigeError .NETWORK_ERROR (some "Network error occurred") none none none
  | .axiosWithResponse status data headerRequestId message =>
      createVantigeError (statusToErrorCode status)
        (some (jsOrStr data.errorMessage (jsOrStr data.topMessage message)))
        (some status)
        (jsOrValOpt data.errorDetails data.topDetails)
        (jsOrStrOpt data.metaRequestId headerRequestId)
  | .other message =>
      createVantigeError .INTERNAL_SERVER_ERROR
        (some (jsOrStr message "Unknown error occurred")) none none none

/-- The outcome of one invocation of the operation passed to
`executeWithRetry`: a successful value or a thrown failure. -/
inductive OpOutcome (α : Type) where
  | ok (v : α)
  | fail (e : RawError)

/-- The observable behaviour of one run of `executeWithRetry`: the settled
result, the number of times the operation was invoked, and the list of
backoff delays (in milliseconds) awaited between attempts, in order. -/
structure RetryResult (α : Type) where
  outcome : Except VantigeSDKError α
  invocations : Nat
  delays : List Nat

/-- The backoff computation on line 145 of `src/client/http-client.ts`:
`Math.min(1000 * Math.pow(2, attempt), 10000)`, where `attempt` is the
0-based index of the attempt that just failed. -/
def backoffDelay (attempt : Nat) : Nat :=
  min (1000 * 2 ^ attempt) 10000

/-- The `nonRetryableErrors` list inside `executeWithRetry`. -/
def nonRetryableErrors : List VantigeErrorCode :=
  [.INVALID_API_KEY, .INSUFFICIENT_PERMISSIONS, .VALIDATION_ERROR,
   .KNOWLEDGE_BASE_NOT_FOUND]

/-- The retry loop of `executeWithRetry`, with the loop expressed by
recursion on the remaining budget: the call `executeWithRetryAux op attempt
remaining` corresponds to entering the loop body with loop variable
`attempt` while `remaining = this.config.retries - attempt` more attempts
are allowed.  A thrown failure is classified exactly as in the source
(`error instanceof VantigeSDKError ? error : this.handleError(error)`,
which coincides with `handleError` since its first case is the
pass-through). -/
def executeWithRetryAux {α : Type} (op : Nat → OpOutcome α) :
    Nat → Nat → RetryResult α
  | attempt, remaining =>
    match op attempt with
    | .ok v => ⟨.ok v, 1, []⟩
    | .fail raw =>
      let lastError := handleError raw
      if lastError.code ∈ nonRetryableErrors then
        ⟨.error lastError, 1, []⟩
      else
        match remaining with
        | 0 => ⟨.error lastError, 1, []⟩
        | r + 1 =>
          let rest := executeWithRetryAux op (attempt + 1) r
          ⟨rest.outcome, rest.invocations + 1, backoffDelay attempt :: rest.delays⟩

/-- The `executeWithRetry` method of `VantigeHttpClient`
(`src/client/http-client.ts`), for a configured `retries` budget:
`for (let attempt = 0; attempt <= this.config.retries; attempt++)`. -/
def executeWithRetry {α : Type} (retries : Nat) (op : Nat → OpOutcome α) :
    RetryResult α :=
  executeWithRetryAux op 0 retries

/-- JS `s.startsWith(p)`, modelled on character lists. -/
def jsStartsWith (p s : List Char) : Bool :=
  s.take p.length == p

/-- The character class `[a-zA-Z0-9]` of the API-key regex. -/
def isAlnumChar (c : Char) : Bool :=
  (decide ('a' ≤ c) && decide (c ≤ 'z')) ||
  (decide ('A' ≤ c) && decide (c ≤ 'Z')) ||
  (decide ('0' ≤ c) && decide (c ≤ '9'))

/-- The recognized live-key prefix literal `"vk_live_"`. -/
def vkLiveChars : List Char := "vk_live_".toList

/-- The recognized test-key prefix literal `"vk_test_"`. -/
def vkTestChars : List Char := "vk_test_".toList

/-- The `validateApiKey` helper from `src/types/validation.ts`:
`apiKey.startsWith("vk_live_") || apiKey.startsWith("vk_test_")`. -/
def validateApiKey (apiKey : List Char) : Bool :=
  jsStartsWith vkLiveChars apiKey || jsStartsWith vkTestChars apiKey

/-- The regex `/^vk_(live|test)_[a-zA-Z0-9]{32,}$/` used by both
`validateAndSetApiKey` and `validateKeyFormat` in `src/auth/index.ts`:
the string starts with `vk_live_` or `vk_test_` (8 characters) and the
rest consists of at least 32 alphanumeric characters, up to the end. -/
def matchesKeyPattern (apiKey : List Char) : Bool :=
  (jsStartsWith vkLiveChars apiKey || jsStartsWith vkTestChars apiKey)
    && decide (32 ≤ (apiKey.drop 8).length)
    && (apiKey.drop 8).all isAlnumChar

/-- Constant message used by both API-key validators. -/
def apiKeyRequiredMsg : String := "API key is required"

/-- Constant message used by both API-key validators. -/
def apiKeyPrefixMsg : String := "API key must start with \"vk_live_\" or \"vk_test_\""

/-- Constant message used by both API-key validators. -/
def apiKeyFormatMsg : String := "API key format is invalid"

/-- Constant message used by `validateKeyFormat` only. -/
def apiKeyTooShortMsg : String := "API key is too short"

/-- The fail-fast `validateAndSetApiKey` path of the `VantigeAuth`
constructor (`src/auth/index.ts`).  On success the constructor stores the
key and `isTestKey = apiKey.startsWith("vk_test_")`; the model returns that
stored state. -/
def validateAndSetApiKey (apiKey : List Char) :
    Except VantigeSDKError (List Char × Bool) :=
  if apiKey = [] then
    .error (createVantigeError .INVALID_API_KEY (some apiKeyRequiredMsg) none none none)
  else if !(validateApiKey apiKey) then
    .error (createVantigeError .INVALID_API_KEY (some apiKeyPrefixMsg) none none none)
  else if !(matchesKeyPattern apiKey) then
    .error (createVantigeError .INVALID_API_KEY (some apiKeyFormatMsg) none none none)
  else
    .ok (apiKey, jsStartsWith vkTestChars apiKey)

/-- The environment tag derived from the key prefix. -/
inductive KeyEnvironment where
  | test
  | live
deriving DecidableEq

/-- The record returned by the static `validateKeyFormat`. -/
structure KeyFormatResult where
  isValid : Bool
  environment : Option KeyEnvironment
  errors : List String
deriving DecidableEq

/-- The static `VantigeAuth.validateKeyFormat` reporting validator
(`src/auth/index.ts`): collects every violated rule; the environment is
set only when the key is valid. -/
def validateKeyFormat (apiKey : List Char) : KeyFormatResult :=
  if apiKey = [] then
    ⟨false, none, [apiKeyRequiredMsg]⟩
  else
    let errors : List String :=
      (if !(jsStartsWith vkLiveChars apiKey)
          && !(jsStartsWith vkTestChars apiKey) then [apiKeyPrefixMsg] else [])
      ++ (if !(matchesKeyPattern apiKey) then [apiKeyFormatMsg] else [])
      ++ (if apiKey.length < 40 then [apiKeyTooShortMsg] else [])
    let isValid := errors.isEmpty
    ⟨isValid,
     if isValid then
       some (if jsStartsWith vkTestChars apiKey then .test else .live)
     else none,
     errors⟩

/-- The `maskApiKey` method of `VantigeAuth` (`src/auth/index.ts`): below
12 characters the key is returned unchanged, otherwise the first 8 and
last 4 characters are kept and the interior is replaced by `*`. -/
def maskApiKey (apiKey : List Char) : List Char :=
  if apiKey.length < 12 then apiKey
  else
    apiKey.take 8
      ++ List.replicate (apiKey.length - 12) '*'
      ++ apiKey.drop (apiKey.length - 4)

/-- JS `String.prototype.trim()`, modelled on character lists with Lean's
ASCII whitespace predicate (space, tab, CR, LF) — the whitespace shapes
relevant to the SDK's inputs. -/
def jsTrim (s : List Char) : List Char :=
  ((s.dropWhile Char.isWhitespace).reverse.dropWhile Char.isWhitespace).reverse

/-- Optional field mapping accepted by the query operation; the SDK only
forwards it, so its two fields are opaque strings. -/
structure FieldMapping where
  sourceUri : Option (List Char)
  sourceDisplayName : Option (List Char)
deriving DecidableEq

/-- The `QueryParams` interface from `src/types/index.ts`. -/
structure QueryParams where
  query : List Char
  topK : Option Int
  includeMetadata : Option Bool
  useGeneration : Option Bool
  fieldMapping : Option FieldMapping
deriving DecidableEq

/-- The `topK` range test in `VantigeClient.query`:
`params.topK !== undefined && (params.topK < 1 || params.topK > 100)`. -/
def topKOutOfRange : Option Int → Bool
  | none => false
  | some k => decide (k < 1) || decide (100 < k)

/-- The query endpoint path template. -/
def queryUrl (corpusId : List Char) : List Char :=
  "/api/v1/knowledge-base/".toList ++ corpusId ++ "/query".toList

/-- The input-validation prefix of `VantigeClient.query`
(`src/client/vantige-client.ts`).  An `.ok` result is the request (path
and body) that is subsequently handed to the HTTP executor; an `.error`
result is raised before the executor — and hence the transport — is ever
invoked, so an error here entails zero network calls and zero retries. -/
def clientQuery (corpusId : List Char) (params : QueryParams) :
    Except VantigeSDKError (List Char × QueryParams) :=
  if corpusId = [] then
    .error (createVantigeError .VALIDATION_ERROR (some "Corpus ID is required") none none none)
  else if params.query = [] ∨ jsTrim params.query = [] then
    .error (createVantigeError .VALIDATION_ERROR (some "Query is required") none none none)
  else if 1000 < params.query.length then
    .error (createVantigeError .VALIDATION_ERROR
      (some "Query must be 1000 characters or less") none none none)
  else if topKOutOfRange params.topK then
    .error (createVantigeError .VALIDATION_ERROR
      (some "topK must be between 1 and 100") none none none)
  else
    .ok (queryUrl corpusId, params)

/-- The `ListKnowledgeBasesParams` interface from `src/types/index.ts`. -/
structure ListKnowledgeBasesParams where
  page : Option Int
  limit : Option Int
  includeArchived : Option Bool
deriving DecidableEq

/-- `URLSearchParams.toString()` for the pairs the list operation appends:
keys and values here never need percent-encoding. -/
def searchParamsToString (pairs : List (String × String)) : String :=
  String.intercalate "&" (pairs.map (fun kv => kv.1 ++ "=" ++ kv.2))

/-- The URL built by `VantigeClient.listKnowledgeBases`
(`src/client/vantige-client.ts`): `page` and `limit` are appended only
when truthy (`if (params?.page)`), `includeArchived` whenever it is not
`undefined`; the `?` is added only when the query string is non-empty. -/
def listKnowledgeBasesUrl (params : Option ListKnowledgeBasesParams) : String :=
  let page := params.bind (fun p => p.page)
  let limit := params.bind (fun p => p.limit)
  let includeArchived := params.bind (fun p => p.includeArchived)
  let pairs : List (String × String) :=
    (match page with
     | some n => if n = 0 then [] else [("page", toString n)]
     | none => [])
    ++ (match limit with
     | some n => if n = 0 then [] else [("limit", toString n)]
     | none => [])
    ++ (match includeArchived with
     | some b => [("includeArchived", if b then "true" else "false")]
     | none => [])
  let queryString := searchParamsToString pairs
  "/api/v1/knowledge-base" ++ (if queryString = "" then "" else "?" ++ queryString)

/-- The backoff delays awaited by a run that performs `k` retries starting
from 0-based attempt `attempt` (proof-layer description of the delay list
produced by `executeWithRetryAux`). -/
def expectedDelays (attempt : Nat) : Nat → List Nat
  | 0 => []
  | k + 1 => backoffDelay attempt :: expectedDelays (attempt + 1) k

/-- Response data with every optional field absent (fixture). -/
def emptyResponseData : ResponseData :=
  ⟨none, none, none, none, none⟩

/-- Fixture: an operation that always fails with a connection-level axios
error (no HTTP response), which classifies as `NETWORK_ERROR`. -/
def opAlwaysNetworkFail : Nat → OpOutcome Nat :=
  fun _ => .fail (.axiosNoResponse none "connect ECONNREFUSED")

/-- Fixture for Scenario D: three network failures, then success with
payload `42` from the fourth attempt on. -/
def opScenarioD : Nat → OpOutcome Nat :=
  fun i => if i < 3 then .fail (.axiosNoResponse none "connect ECONNREFUSED") else .ok 42

/-- Fixture for Scenario E: every attempt fails with an HTTP 401
response. -/
def opScenarioE : Nat → OpOutcome Nat :=
  fun _ => .fail (.axiosWithResponse 401 emptyResponseData none "Request failed with status code 401")

/-- Fixture: the 40-character test credential of Scenario A. -/
def scenarioAKey : List Char :=
  "vk_test_abcdefghijklmnopqrstuvwxyz123456".toList

/-! Helper lemmas about the retry loop. -/

theorem executeWithRetryAux_ok {α : Type} {op : Nat → OpOutcome α} {attempt : Nat}
    {v : α} (h : op attempt = .ok v) (remaining : Nat) :
    executeWithRetryAux op attempt remaining = ⟨.ok v, 1, []⟩ := by
  unfold executeWithRetryAux
  rw [h]

theorem executeWithRetryAux_fail_nonretryable {α : Type} {op : Nat → OpOutcome α}
    {attempt : Nat} {raw : RawError} (h : op attempt = .fail raw)
    (hnr : (handleError raw).code ∈ nonRetryableErrors) (remaining : Nat) :
    executeWithRetryAux op attempt remaining = ⟨.error (handleError raw), 1, []⟩ := by
  unfold executeWithRetryAux
  rw [h]
  simp [hnr]

theorem executeWithRetryAux_fail_exhausted {α : Type} {op : Nat → OpOutcome α}
    {attempt : Nat} {raw : RawError} (h : op attempt = .fail raw)
    (hnr : (handleError raw).code ∉ nonRetryableErrors) :
    executeWithRetryAux op attempt 0 = ⟨.error (handleError raw), 1, []⟩ := by
  unfold executeWithRetryAux
  rw [h]
  simp [hnr]

theorem executeWithRetryAux_fail_retry {α : Type} {op : Nat → OpOutcome α}
    {attempt : Nat} {raw : RawError} (h : op attempt = .fail raw)
    (hnr : (handleError raw).code ∉ nonRetryableErrors) (r : Nat) :
    executeWithRetryAux op attempt (r + 1) =
      ⟨(executeWithRetryAux op (attempt + 1) r).outcome,
       (executeWithRetryAux op (attempt + 1) r).invocations + 1,
       backoffDelay attempt :: (executeWithRetryAux op (attempt + 1) r).delays⟩ := by
  conv => lhs; unfold executeWithRetryAux
  rw [h]
  simp [hnr]

theorem executeWithRetryAux_skip {α : Type} (op : Nat → OpOutcome α) :
    ∀ (k attempt remaining : Nat), k ≤ remaining →
    (∀ i, i < k → ∃ raw, op (attempt + i) = .fail raw ∧
        (handleError raw).code ∉ nonRetryableErrors) →
    executeWithRetryAux op attempt remaining =
      ⟨(executeWithRetryAux op (attempt + k) (remaining - k)).outcome,
       (executeWithRetryAux op (attempt + k) (remaining - k)).invocations + k,
       expectedDelays attempt k
         ++ (executeWithRetryAux op (attempt + k) (remaining - k)).delays⟩ := by
  intro k
  induction k with
  | zero =>
    intro attempt remaining _ _
    simp [expectedDelays]
  | succ k ih =>
    intro attempt remaining hk hfail
    obtain ⟨r, rfl⟩ : ∃ r, remaining = r + 1 := ⟨remaining - 1, by omega⟩
    obtain ⟨raw, hop, hnr⟩ := hfail 0 (Nat.succ_pos k)
    rw [Nat.add_zero] at hop
    rw [executeWithRetryAux_fail_retry hop hnr r]
    have ih' := ih (attempt + 1) r (by omega) (fun i hi => by
      have hf := hfail (i + 1) (by omega)
      rwa [show attempt + (i + 1) = attempt + 1 + i by omega] at hf)
    rw [ih']
    rw [show attempt + 1 + k = attempt + (k + 1) by omega,
        show r - k = r + 1 - (k + 1) by omega]
    simp [expectedDelays, RetryResult.mk.injEq]
    omega

theorem expectedDelays_getElem (a : Nat) :
    ∀ (k i : Nat), i < k → (expectedDelays a k)[i]? = some (backoffDelay (a + i)) := by
  intro k
  induction k generalizing a with
  | zero => intro i hi; omega
  | succ k ih =>
    intro i hi
    match i with
    | 0 => simp [expectedDelays]
    | j + 1 =>
      have hj := ih (a + 1) j (by omega)
      simp only [expectedDelays, List.getElem?_cons_succ]
      rw [hj, show a + 1 + j = a + (j + 1) by omega]

/-- C1: for every failure carrying an HTTP response (a response status is a
positive number), `handleError` maps the status to the error kind by the
fixed table 401 to INVALID_API_KEY, 403 to INSUFFICIENT_PERMISSIONS, 404 to
KNOWLEDGE_BASE_NOT_FOUND, 422 to VALIDATION_ERROR, 429 to
RATE_LIMIT_EXCEEDED, 500 to INTERNAL_SERVER_ERROR, 503 to
SERVICE_UNAVAILABLE, and NETWORK_ERROR for every other status; the
resulting error's numeric status code equals the HTTP response status. -/
theorem claim_C1_status_table (status : Nat) (data : ResponseData)
    (headerRequestId : Option String) (message : String) (hstatus : 0 < status) :
    (handleError (.axiosWithResponse status data headerRequestId message)).statusCode = status ∧
    (status = 401 →
      (handleError (.axiosWithResponse status data headerRequestId message)).code = .INVALID_API_KEY) ∧
    (status = 403 →
      (handleError (.axiosWithResponse status data headerRequestId message)).code = .INSUFFICIENT_PERMISSIONS) ∧
    (status = 404 →
      (handleError (.axiosWithResponse status data headerRequestId message)).code = .KNOWLEDGE_BASE_NOT_FOUND) ∧
    (status = 422 →
      (handleError (.axiosWithResponse status data headerRequestId message)).code = .VALIDATION_ERROR) ∧
    (status = 429 →
      (handleError (.axiosWithResponse status data headerRequestId message)).code = .RATE_LIMIT_EXCEEDED) ∧
    (status = 500 →
      (handleError (.axiosWithResponse status data headerRequestId message)).code = .INTERNAL_SERVER_ERROR) ∧
    (status = 503 →
      (handleError (.axiosWithResponse status data headerRequestId message)).code = .SERVICE_UNAVAILABLE) ∧
    (status ≠ 401 → status ≠ 403 → status ≠ 404 → status ≠ 422 → status ≠ 429 →
      status ≠ 500 → status ≠ 503 →
      (handleError (.axiosWithResponse status data headerRequestId message)).code = .NETWORK_ERROR) := by
  refine ⟨?_, fun h => by subst h; rfl, fun h => by subst h; rfl, fun h => by subst h; rfl,
    fun h => by subst h; rfl, fun h => by subst h; rfl, fun h => by subst h; rfl,
    fun h => by subst h; rfl, fun h1 h2 h3 h4 h5 h6 h7 => ?_⟩
  · show jsOrNat (some status) 500 = status
    show (if status = 0 then 500 else status) = status
    rw [if_neg (by omega)]
  · show statusToErrorCode status = .NETWORK_ERROR
    simp [statusToErrorCode, h1, h2, h3, h4, h5, h6, h7]

/-- Witness for C1: a 401 response (Scenario E's response) classifies as
INVALID_API_KEY with status code 401. -/
theorem claim_C1_status_table_witness :
    (handleError (.axiosWithResponse 401 emptyResponseData none
        "Request failed with status code 401")).code = .INVALID_API_KEY ∧
    (handleError (.axiosWithResponse 401 emptyResponseData none
        "Request failed with status code 401")).statusCode = 401 := by
  have h := claim_C1_status_table 401 emptyResponseData none
    "Request failed with status code 401" (by omega)
  exact ⟨h.2.1 rfl, h.1⟩

/-- C2 counterexample: an axios failure with no HTTP response and
`code = "ECONNABORTED"` classifies as REQUEST_TIMEOUT, but its status code
is the default 500, not the 408-equivalent claimed by the spec
(`handleError` passes no status, so `createVantigeError` falls back
to 500). -/
theorem claim_C2_counterexample :
    (handleError (.axiosNoResponse (some "ECONNABORTED")
        "timeout of 30000ms exceeded")).code = .REQUEST_TIMEOUT ∧
    (handleError (.axiosNoResponse (some "ECONNABORTED")
        "timeout of 30000ms exceeded")).statusCode = 500 ∧
    (handleError (.axiosNoResponse (some "ECONNABORTED")
        "timeout of 30000ms exceeded")).statusCode ≠ 408 := by
  refine ⟨rfl, rfl, by decide⟩

/-- C2 (amended): for every transport-layer failure with no HTTP response,
`handleError` returns kind REQUEST_TIMEOUT when the abort/timeout signal
(`code = "ECONNABORTED"`) is set and kind NETWORK_ERROR otherwise; in both
cases the status code is the default 500. -/
theorem claim_C2_no_response (code : Option String) (message : String) :
    (handleError (.axiosNoResponse code message)).statusCode = 500 ∧
    (code = some "ECONNABORTED" →
      (handleError (.axiosNoResponse code message)).code = .REQUEST_TIMEOUT) ∧
    (code ≠ some "ECONNABORTED" →
      (handleError (.axiosNoResponse code message)).code = .NETWORK_ERROR) := by
  by_cases hc : code = some "ECONNABORTED" <;>
    simp [handleError, createVantigeError, jsOrStr, jsOrNat, hc]

/-- Witness for C2 (amended): concrete timeout and connection failures. -/
theorem claim_C2_no_response_witness :
    (handleError (.axiosNoResponse (some "ECONNABORTED") "timed out")).code = .REQUEST_TIMEOUT ∧
    (handleError (.axiosNoResponse none "connect ECONNREFUSED")).code = .NETWORK_ERROR ∧
    (handleError (.axiosNoResponse none "connect ECONNREFUSED")).statusCode = 500 :=
  ⟨(claim_C2_no_response (some "ECONNABORTED") "timed out").2.1 rfl,
   (claim_C2_no_response none "connect ECONNREFUSED").2.2 (by decide),
   (claim_C2_no_response none "connect ECONNREFUSED").1⟩

/-- C3: when some attempt (the `k`-th, reached after `k` retryable
failures) fails with a classified kind in {INVALID_API_KEY,
INSUFFICIENT_PERMISSIONS, VALIDATION_ERROR, KNOWLEDGE_BASE_NOT_FOUND}, the
retry executor performs no further attempt regardless of the remaining
budget: it raises that error after exactly `k + 1` invocations — one
invocation for that failure. -/
theorem claim_C3_nonretryable_never_retries {α : Type} (N k : Nat)
    (op : Nat → OpOutcome α) (raw : RawError)
    (hk : k ≤ N)
    (hprev : ∀ i, i < k → ∃ r, op i = .fail r ∧
        (handleError r).code ∉ nonRetryableErrors)
    (hop : op k = .fail raw)
    (hnr : (handleError raw).code = .INVALID_API_KEY ∨
           (handleError raw).code = .INSUFFICIENT_PERMISSIONS ∨
           (handleError raw).code = .VALIDATION_ERROR ∨
           (handleError raw).code = .KNOWLEDGE_BASE_NOT_FOUND) :
    (executeWithRetry N op).outcome = .error (handleError raw) ∧
    (executeWithRetry N op).invocations = k + 1 := by
  have hmem : (handleError raw).code ∈ nonRetryableErrors := by
    rcases hnr with h | h | h | h <;> simp [nonRetryableErrors, h]
  have hskip := executeWithRetryAux_skip op k 0 N hk (fun i hi => by
    simpa using hprev i hi)
  unfold executeWithRetry
  rw [hskip, executeWithRetryAux_fail_nonretryable (by simpa using hop) hmem]
  refine ⟨rfl, ?_⟩
  show 1 + k = k + 1
  omega

/-- Witness for C3 (Scenario E): with a 401 response on the very first
attempt and budget 3, the executor stops after exactly one invocation. -/
theorem claim_C3_witness :
    (executeWithRetry 3 opScenarioE).outcome
      = .error (handleError (.axiosWithResponse 401 emptyResponseData none
          "Request failed with status code 401")) ∧
    (executeWithRetry 3 opScenarioE).invocations = 1 :=
  claim_C3_nonretryable_never_retries 3 0 opScenarioE _ (by omega)
    (fun i hi => absurd hi (by omega)) rfl (Or.inl (by decide))

/-- C4: with `maxRetries = N` (0 ≤ N ≤ 5), an operation that always fails
with a retryable kind is invoked exactly `N + 1` times and the last
classified error is raised; and if the first success comes on attempt `k`
within budget, its value is returned after exactly `k + 1` invocations. -/
theorem claim_C4_retry_budget {α : Type} (N : Nat) (hN : N ≤ 5)
    (op : Nat → OpOutcome α) :
    ((∀ i, i ≤ N → ∃ raw, op i = .fail raw ∧
        (handleError raw).code ∉ nonRetryableErrors) →
      ∀ raw, op N = .fail raw →
        (executeWithRetry N op).invocations = N + 1 ∧
        (executeWithRetry N op).outcome = .error (handleError raw)) ∧
    (∀ (k : Nat) (v : α), k ≤ N →
      (∀ i, i < k → ∃ raw, op i = .fail raw ∧
          (handleError raw).code ∉ nonRetryableErrors) →
      op k = .ok v →
        (executeWithRetry N op).outcome = .ok v ∧
        (executeWithRetry N op).invocations = k + 1) := by
  constructor
  · intro hfail raw hrawN
    have hskip := executeWithRetryAux_skip op N 0 N le_rfl (fun i hi => by
      simpa using hfail i (by omega))
    have hnr : (handleError raw).code ∉ nonRetryableErrors := by
      obtain ⟨raw', hop', hnr'⟩ := hfail N le_rfl
      rw [hrawN] at hop'
      injection hop' with h
      rwa [h]
    unfold executeWithRetry
    rw [hskip, show N - N = 0 by omega,
      executeWithRetryAux_fail_exhausted (by simpa using hrawN) hnr]
    refine ⟨?_, rfl⟩
    show 1 + N = N + 1
    omega
  · intro k v hk hprev hok
    have hskip := executeWithRetryAux_skip op k 0 N hk (fun i hi => by
      simpa using hprev i hi)
    unfold executeWithRetry
    rw [hskip, executeWithRetryAux_ok (by simpa using hok) (N - k)]
    refine ⟨rfl, ?_⟩
    show 1 + k = k + 1
    omega

/-- Witness for C4 (Scenario D): three network failures followed by a
success, with `maxRetries = 3`, return the payload after exactly 4
invocations. -/
theorem claim_C4_witness :
    (executeWithRetry 3 opScenarioD).outcome = .ok 42 ∧
    (executeWithRetry 3 opScenarioD).invocations = 4 := by
  have h := (claim_C4_retry_budget 3 (by omega) opScenarioD).2 3 42 (by omega)
    (fun i hi => ⟨.axiosNoResponse none "connect ECONNREFUSED",
      by simp [opScenarioD, hi], by decide⟩)
    (by simp [opScenarioD])
  exact ⟨h.1, h.2⟩

/-- C5: in a run whose attempts all fail retryably, the backoff delay
awaited before attempt `k` (the `k`-th retry, 1-based) equals
`min(1000 * 2 ^ (k - 1), 10000)` milliseconds, in exact integer
arithmetic. -/
theorem claim_C5_backoff {α : Type} (N : Nat) (op : Nat → OpOutcome α)
    (hfail : ∀ i, i ≤ N → ∃ raw, op i = .fail raw ∧
        (handleError raw).code ∉ nonRetryableErrors)
    (k : Nat) (hk1 : 1 ≤ k) (hkN : k ≤ N) :
    (executeWithRetry N op).delays[k - 1]? = some (min (1000 * 2 ^ (k - 1)) 10000) := by
  have hskip := executeWithRetryAux_skip op N 0 N le_rfl (fun i hi => by
    simpa using hfail i (by omega))
  obtain ⟨raw, hop, hnr⟩ := hfail N le_rfl
  unfold executeWithRetry
  rw [hskip, show N - N = 0 by omega,
    executeWithRetryAux_fail_exhausted (by simpa using hop) hnr]
  show (expectedDelays 0 N ++ [])[k - 1]? = some (min (1000 * 2 ^ (k - 1)) 10000)
  rw [List.append_nil, expectedDelays_getElem 0 N (k - 1) (by omega)]
  simp [backoffDelay]

/-- Witness for C5: in an always-failing run with budget 3, the delay
before the second retry is 2000 milliseconds. -/
theorem claim_C5_backoff_witness :
    (executeWithRetry 3 opAlwaysNetworkFail).delays[1]? = some 2000 := by
  have h := claim_C5_backoff 3 opAlwaysNetworkFail
    (fun i _ => ⟨.axiosNoResponse none "connect ECONNREFUSED", rfl, by decide⟩)
    2 (by omega) (by omega)
  simpa using h

/-- C6: `maskApiKey` preserves the length of every input exactly; an input
shorter than 12 characters is returned unchanged; for an input of length
at least 12 the first 8 and last 4 characters are kept and the interior is
replaced by `*`; Scenario A's 40-character credential masks to
`vk_test_` followed by 28 `*` followed by `3456`. -/
theorem claim_C6_mask (s : List Char) :
    (maskApiKey s).length = s.length ∧
    (s.length < 12 → maskApiKey s = s) ∧
    (12 ≤ s.length →
      (maskApiKey s).take 8 = s.take 8 ∧
      (maskApiKey s).drop (s.length - 4) = s.drop (s.length - 4) ∧
      ((maskApiKey s).drop 8).take (s.length - 12)
        = List.replicate (s.length - 12) '*') ∧
    maskApiKey scenarioAKey
      = ("vk_test_" ++ String.mk (List.replicate 28 '*') ++ "3456").toList := by
  by_cases h : s.length < 12
  · exact ⟨by simp [maskApiKey, h], fun _ => by simp [maskApiKey, h],
      fun h12 => absurd h12 (by omega), by decide⟩
  · have h12 : 12 ≤ s.length := by omega
    have hmask : maskApiKey s
        = s.take 8 ++ (List.replicate (s.length - 12) '*' ++ s.drop (s.length - 4)) := by
      simp [maskApiKey, h, List.append_assoc]
    have htake8len : (s.take 8).length = 8 := by
      simp [List.length_take]
      omega
    refine ⟨?_, fun hlt => absurd hlt (by omega), fun _ => ⟨?_, ?_, ?_⟩, by decide⟩
    · rw [hmask]
      simp [List.length_append, htake8len, List.length_replicate, List.length_drop]
      omega
    · rw [hmask, List.take_append_eq_append_take, htake8len]
      simp [List.take_take]
    · rw [hmask, List.drop_append_eq_append_drop, htake8len,
        List.drop_eq_nil_of_le (le_of_eq_of_le htake8len (by omega)),
        show s.length - 4 - 8 = s.length - 12 by omega,
        List.drop_append_eq_append_drop,
        List.drop_eq_nil_of_le (le_of_eq_of_le (List.length_replicate _ _) le_rfl)]
      simp [List.length_replicate]
    · rw [hmask, List.drop_append_eq_append_drop, htake8len,
        List.drop_eq_nil_of_le (le_of_eq_of_le htake8len le_rfl)]
      simp [List.take_append_eq_append_take, List.length_replicate, List.take_replicate]

/-- Witness for C6 at Scenario A's 40-character credential. -/
theorem claim_C6_mask_witness :
    (maskApiKey scenarioAKey).length = scenarioAKey.length ∧
    (maskApiKey scenarioAKey).take 8 = scenarioAKey.take 8 := by
  have h := claim_C6_mask scenarioAKey
  exact ⟨h.1, (h.2.2.1 (by decide)).1⟩

theorem jsTrim_length_le (s : List Char) : (jsTrim s).length ≤ s.length := by
  unfold jsTrim
  have h1 : (s.dropWhile Char.isWhitespace).length ≤ s.length :=
    (List.dropWhile_sublist _).length_le
  have h2 : ((s.dropWhile Char.isWhitespace).reverse.dropWhile Char.isWhitespace).length
      ≤ (s.dropWhile Char.isWhitespace).reverse.length :=
    (List.dropWhile_sublist _).length_le
  simp only [List.length_reverse] at h2 ⊢
  omega

/-- C7: whenever the corpus identifier is blank, or the query text is
blank after trimming, or the trimmed query text exceeds 1000 characters,
or a supplied `topK` lies outside [1, 100] (0 included as invalid),
`VantigeClient.query` returns a local VALIDATION_ERROR instead of a
request, so the transport is never invoked (zero network calls, zero
retries). -/
theorem claim_C7_query_validation (corpusId : List Char) (params : QueryParams)
    (h : corpusId = [] ∨ jsTrim params.query = [] ∨
         1000 < (jsTrim params.query).length ∨ topKOutOfRange params.topK = true) :
    ∃ e, clientQuery corpusId params = .error e ∧ e.code = .VALIDATION_ERROR := by
  unfold clientQuery
  split_ifs with h1 h2 h3 h4
  · exact ⟨_, rfl, rfl⟩
  · exact ⟨_, rfl, rfl⟩
  · exact ⟨_, rfl, rfl⟩
  · exact ⟨_, rfl, rfl⟩
  · exfalso
    rcases h with h | h | h | h
    · exact h1 h
    · exact h2 (Or.inr h)
    · exact h3 (lt_of_lt_of_le h (jsTrim_length_le params.query))
    · exact h4 h

/-- Witness for C7: a supplied `topK` of 0 is rejected locally. -/
theorem claim_C7_query_validation_witness :
    ∃ e, clientQuery "2makgyrXV6".toList
        ⟨"hello".toList, some 0, none, none, none⟩ = .error e ∧
      e.code = .VALIDATION_ERROR :=
  claim_C7_query_validation _ _ (Or.inr (Or.inr (Or.inr (by decide))))

/-- C8 counterexample: the claim that every single non-array details
payload is normalized to a one-element list is false: the non-array
payload `false` is falsy, so `details ? [details] : []` normalizes it to
the empty list. -/
theorem claim_C8_counterexample :
    (createVantigeError .NETWORK_ERROR none none
        (some (.atom (.bool false))) none).details = [] ∧
    (createVantigeError .NETWORK_ERROR none none
        (some (.atom (.bool false))) none).details ≠ [JsAtom.bool false] :=
  ⟨rfl, by decide⟩

/-- C8 (amended): `createVantigeError` is total; for every kind, the error
built with only the kind round-trips its kind through `toJSON`, carries
the kind's canonical default message from the `ErrorMessages` table, and
carries status code 500 (the uniform default/fallback status); a single
truthy non-array details payload is normalized to a one-element list,
while a falsy single payload or absent details normalize to the empty
list, and an array payload is kept as is. -/
theorem claim_C8_make_error_defaults (k : VantigeErrorCode) :
    (createVantigeError k none none none none).toJSON.code = k ∧
    (createVantigeError k none none none none).toJSON.message = ErrorMessages k ∧
    (createVantigeError k none none none none).toJSON.statusCode = 500 ∧
    (createVantigeError k none none none none).toJSON.details = [] ∧
    (∀ a : JsAtom, a.truthy = true →
      (createVantigeError k none none (some (.atom a)) none).details = [a]) ∧
    (∀ a : JsAtom, a.truthy = false →
      (createVantigeError k none none (some (.atom a)) none).details = []) ∧
    (∀ l : List JsAtom,
      (createVantigeError k none none (some (.arr l)) none).details = l) := by
  refine ⟨rfl, rfl, rfl, rfl, fun a ha => ?_, fun a ha => ?_, fun l => rfl⟩
  · show normalizeDetails (some (.atom a)) = [a]
    simp [normalizeDetails, ha]
  · show normalizeDetails (some (.atom a)) = []
    simp [normalizeDetails, ha]

/-- Witness for C8 (amended): a truthy structured payload is normalized to
a one-element list, and the kind-only error defaults to status 500. -/
theorem claim_C8_make_error_defaults_witness :
    (createVantigeError .INVALID_API_KEY none none
        (some (.atom (.obj 0))) none).details = [JsAtom.obj 0] ∧
    (createVantigeError .INVALID_API_KEY none none none none).toJSON.statusCode = 500 :=
  ⟨(claim_C8_make_error_defaults .INVALID_API_KEY).2.2.2.2.1 (.obj 0) (by decide),
   (claim_C8_make_error_defaults .INVALID_API_KEY).2.2.1⟩

theorem jsOrStr_some_ne {a : String} (h : a ≠ "") (b : String) :
    jsOrStr (some a) b = a := by
  simp [jsOrStr, h]

theorem matchesKeyPattern_validateApiKey {s : List Char}
    (h : matchesKeyPattern s = true) : validateApiKey s = true := by
  simp only [matchesKeyPattern, Bool.and_eq_true, Bool.or_eq_true] at h
  simp only [validateApiKey, Bool.or_eq_true]
  exact h.1.1

theorem matchesKeyPattern_length {s : List Char}
    (h : matchesKeyPattern s = true) : 40 ≤ s.length := by
  simp only [matchesKeyPattern, Bool.and_eq_true, Bool.or_eq_true,
    decide_eq_true_eq] at h
  obtain ⟨⟨hp, h32⟩, _⟩ := h
  have hL8 : (vkLiveChars).length = 8 := by decide
  have hT8 : (vkTestChars).length = 8 := by decide
  have h8 : 8 ≤ s.length := by
    rcases hp with hp | hp
    · simp only [jsStartsWith, beq_iff_eq] at hp
      have hlen := congrArg List.length hp
      rw [List.length_take, hL8] at hlen
      omega
    · simp only [jsStartsWith, beq_iff_eq] at hp
      have hlen := congrArg List.length hp
      rw [List.length_take, hT8] at hlen
      omega
  have hd : (s.drop 8).length = s.length - 8 := by simp [List.length_drop]
  omega

theorem validApiKey_not_both {s : List Char} (h : validateApiKey s = true) :
    ¬(jsStartsWith vkLiveChars s = false
      ∧ jsStartsWith vkTestChars s = false) := by
  simp only [validateApiKey, Bool.or_eq_true] at h
  rintro ⟨h1, h2⟩
  rcases h with h | h
  · rw [h1] at h
    exact Bool.noConfusion h
  · rw [h2] at h
    exact Bool.noConfusion h

theorem invalidApiKey_both {s : List Char} (h : validateApiKey s = false) :
    jsStartsWith vkLiveChars s = false
      ∧ jsStartsWith vkTestChars s = false := by
  refine ⟨?_, ?_⟩
  · cases hl : jsStartsWith vkLiveChars s
    · rfl
    · rw [validateApiKey, hl] at h
      simp at h
  · cases ht : jsStartsWith vkTestChars s
    · rfl
    · rw [validateApiKey, ht] at h
      simp at h

theorem keyFormat_prefix_cond (s : List Char) :
    (!(jsStartsWith vkLiveChars s) && !(jsStartsWith vkTestChars s))
      = !(validateApiKey s) := by
  rw [← Bool.not_or]
  rfl

/-- C9: the fail-fast constructor path `validateAndSetApiKey` and the
reporting validator `validateKeyFormat` accept exactly the same credential
strings; when validation fails the constructor raises with the single most
relevant message — the first entry of the reporting validator's error
list — while `validateKeyFormat` reports every violated rule. -/
theorem claim_C9_auth_equiv (s : List Char) :
    ((∃ v, validateAndSetApiKey s = .ok v) ↔ (validateKeyFormat s).isValid = true) ∧
    (∀ e, validateAndSetApiKey s = .error e →
      (validateKeyFormat s).errors.head? = some e.message ∧
      e.message ∈ (validateKeyFormat s).errors) ∧
    (s ≠ [] →
      (validateApiKey s = false → apiKeyPrefixMsg ∈ (validateKeyFormat s).errors) ∧
      (matchesKeyPattern s = false → apiKeyFormatMsg ∈ (validateKeyFormat s).errors) ∧
      (s.length < 40 → apiKeyTooShortMsg ∈ (validateKeyFormat s).errors)) := by
  by_cases hs : s = []
  · subst hs
    refine ⟨by simp [validateAndSetApiKey, validateKeyFormat], ?_, by simp⟩
    intro e he
    rw [show validateAndSetApiKey ([] : List Char)
        = .error (createVantigeError .INVALID_API_KEY (some apiKeyRequiredMsg)
            none none none) from rfl] at he
    injection he with h
    subst h
    exact ⟨by decide, by decide⟩
  · by_cases hQ : matchesKeyPattern s = true
    · have hP : validateApiKey s = true := matchesKeyPattern_validateApiKey hQ
      have h40 : 40 ≤ s.length := matchesKeyPattern_length hQ
      have hL : ¬(s.length < 40) := by omega
      have hnb := validApiKey_not_both hP
      refine ⟨?_, ?_, fun _ => ⟨fun hf => by rw [hf] at hP; exact Bool.noConfusion hP,
        fun hf => by rw [hf] at hQ; exact Bool.noConfusion hQ,
        fun hl => absurd hl hL⟩⟩
      · simp [validateAndSetApiKey, validateKeyFormat, hs, hP, hQ, hnb, hL]
      · intro e he
        simp [validateAndSetApiKey, hs, hP, hQ] at he
    · have hQ' : matchesKeyPattern s = false := by
        cases hq : matchesKeyPattern s
        · rfl
        · exact absurd hq hQ
      by_cases hP : validateApiKey s = true
      · have hnb := validApiKey_not_both hP
        have hset : validateAndSetApiKey s
            = .error (createVantigeError .INVALID_API_KEY (some apiKeyFormatMsg)
                none none none) := by
          simp [validateAndSetApiKey, hs, hP, hQ']
        have herrs : (validateKeyFormat s).errors
            = apiKeyFormatMsg :: (if s.length < 40 then [apiKeyTooShortMsg] else []) := by
          simp [validateKeyFormat, hs, hnb, hQ']
        have hvalid : (validateKeyFormat s).isValid = false := by
          simp [validateKeyFormat, hs, hnb, hQ']
        refine ⟨?_, ?_, fun _ => ⟨fun hf => by rw [hf] at hP; exact Bool.noConfusion hP,
          fun _ => by simp [herrs], fun hl => by simp [herrs, hl]⟩⟩
        · simp [hset, hvalid]
        · intro e he
          rw [hset] at he
          injection he with h
          subst h
          have hmsg : (createVantigeError .INVALID_API_KEY (some apiKeyFormatMsg)
              none none none).message = apiKeyFormatMsg := by
            show jsOrStr (some apiKeyFormatMsg)
              (ErrorMessages .INVALID_API_KEY) = apiKeyFormatMsg
            exact jsOrStr_some_ne (by decide) _
          rw [hmsg, herrs]
          exact ⟨rfl, by simp⟩
      · have hP' : validateApiKey s = false := by
          cases hp : validateApiKey s
          · rfl
          · exact absurd hp hP
        have hboth := invalidApiKey_both hP'
        have hset : validateAndSetApiKey s
            = .error (createVantigeError .INVALID_API_KEY (some apiKeyPrefixMsg)
                none none none) := by
          simp [validateAndSetApiKey, hs, hP']
        have herrs : (validateKeyFormat s).errors
            = apiKeyPrefixMsg :: apiKeyFormatMsg
                :: (if s.length < 40 then [apiKeyTooShortMsg] else []) := by
          simp [validateKeyFormat, hs, hboth.1, hboth.2, hQ']
        have hvalid : (validateKeyFormat s).isValid = false := by
          simp [validateKeyFormat, hs, hboth.1, hboth.2, hQ']
        refine ⟨?_, ?_, fun _ => ⟨fun _ => by simp [herrs],
          fun _ => by simp [herrs], fun hl => by simp [herrs, hl]⟩⟩
        · simp [hset, hvalid]
        · intro e he
          rw [hset] at he
          injection he with h
          subst h
          have hmsg : (createVantigeError .INVALID_API_KEY (some apiKeyPrefixMsg)
              none none none).message = apiKeyPrefixMsg := by
            show jsOrStr (some apiKeyPrefixMsg)
              (ErrorMessages .INVALID_API_KEY) = apiKeyPrefixMsg
            exact jsOrStr_some_ne (by decide) _
          rw [hmsg, herrs]
          exact ⟨rfl, by simp⟩

/-- Witness for C9: Scenario A's valid 40-character test credential is
accepted by both validators. -/
theorem claim_C9_auth_equiv_witness :
    (validateKeyFormat scenarioAKey).isValid = true ∧
    (∃ v, validateAndSetApiKey scenarioAKey = .ok v) :=
  ⟨by decide, (claim_C9_auth_equiv scenarioAKey).1.mpr (by decide)⟩

/-- C10: in `listKnowledgeBases`, a supplied `page` or `limit` of 0 is
omitted from the query string exactly as if it were absent (presence is
tested by truthiness), whereas a supplied `includeArchived` of `false` is
serialized as `includeArchived=false`; a call with `page = 0` and
`limit = 0` produces a request path with no query string at all. -/
theorem claim_C10_list_query_truthiness :
    (∀ (l : Option Int) (a : Option Bool),
      listKnowledgeBasesUrl (some ⟨some 0, l, a⟩)
        = listKnowledgeBasesUrl (some ⟨none, l, a⟩)) ∧
    (∀ (p : Option Int) (a : Option Bool),
      listKnowledgeBasesUrl (some ⟨p, some 0, a⟩)
        = listKnowledgeBasesUrl (some ⟨p, none, a⟩)) ∧
    listKnowledgeBasesUrl (some ⟨none, none, some false⟩)
      = "/api/v1/knowledge-base?includeArchived=false" ∧
    listKnowledgeBasesUrl (some ⟨some 0, some 0, none⟩) = "/api/v1/knowledge-base" ∧
    listKnowledgeBasesUrl (some ⟨some 0, some 0, none⟩) = listKnowledgeBasesUrl none :=
  ⟨fun l a => rfl, fun p a => rfl, rfl, rfl, rfl⟩

end VantigeSDK
